import Mathlib

/-!
Shallow embedding of the BankSystem repository's ledger core
(`models/account.py` and `models/transaction.py`).

Modelling conventions:

* Python numbers (`int` / `float`) are modelled as exact rationals `ℚ`.
  The source performs ordinary binary floating point arithmetic; the spec
  (§9) fixes the intended rounding policy to round-half-to-even at 2
  decimal places, which is what `round2` below implements over `ℚ`.
* Dynamically typed Python values that flow into the engine (operation
  amounts, serialized dictionaries) are modelled by the universe `PyVal`.
  An ISO-8601 timestamp string is modelled abstractly by the instant it
  denotes (`PyVal.iso`), a `datetime` object by `PyVal.dt`; the claims
  only ever compare timestamps, never inspect the character data.
* Python exceptions are modelled with `Except PyErr`; a `try`/`except`
  block becomes an explicit handler on the result of a `*Body` function.
  State mutated before a raise stays mutated, exactly as in Python, so
  every `*Body` function returns the post-state alongside the outcome.
* `Bankaccount` objects carry the field types of the data model
  (`account_id : int`, numeric `balance`, string `currency`), matching
  the source's annotations; operation arguments stay dynamically typed.
* Python's `transfer` mutates `self` and `target_account` through object
  references.  The embedding provides `Bankaccount.transfer` for the case
  of two distinct objects and `Bankaccount.transfer_self` for the aliased
  call `a.transfer(a, ...)`, each following the source line by line.
-/

/-- A dynamically typed Python value, as far as the ledger core inspects
one: integers, floats (exact rationals in the model), strings, ISO-8601
timestamp strings (abstracted to the instant they denote), `datetime`
objects, lists, string-keyed dictionaries, and `None`. -/
inductive PyVal where
  | int : Int → PyVal
  | float : ℚ → PyVal
  | str : String → PyVal
  | iso : Nat → PyVal
  | dt : Nat → PyVal
  | list : List PyVal → PyVal
  | dict : List (String × PyVal) → PyVal
  | none : PyVal

/-- A Python exception, tagged by class, carrying `str(e)`. -/
inductive PyErr where
  | typeError : String → PyErr
  | valueError : String → PyErr
  | keyError : String → PyErr
deriving DecidableEq

/-- Python `str(e)` of an exception (the message it was raised with). -/
def PyErr.msg : PyErr → String
  | .typeError m => m
  | .valueError m => m
  | .keyError m => m

/-- Python `isinstance(v, (int, float))`. -/
def PyVal.isNum : PyVal → Bool
  | .int _ => true
  | .float _ => true
  | _ => false

/-- Python `isinstance(v, int)`. -/
def PyVal.isInt : PyVal → Bool
  | .int _ => true
  | _ => false

/-- Python `isinstance(v, str)`. -/
def PyVal.isStr : PyVal → Bool
  | .str _ => true
  | _ => false

/-- Python `isinstance(v, datetime)`. -/
def PyVal.isDt : PyVal → Bool
  | .dt _ => true
  | _ => false

/-- Numeric value of a `PyVal`; only used under an `isNum` check. -/
def PyVal.toQ : PyVal → ℚ
  | .int n => (n : ℚ)
  | .float q => q
  | _ => 0

/-- Integer payload; only used under an `isInt` check. -/
def PyVal.asInt : PyVal → Int
  | .int n => n
  | _ => 0

/-- String payload; only used under an `isStr` check. -/
def PyVal.asStr : PyVal → String
  | .str s => s
  | _ => ""

/-- The `datetime` payload; only used under an `isDt` check. -/
def PyVal.asDt : PyVal → Nat
  | .dt n => n
  | _ => 0

/-- A Python order comparison between a dynamic value and a number:
succeeds with the numeric value when the operand is an `int` or `float`,
raises `TypeError` otherwise (e.g. `"abc" <= 0`). -/
def pyCmpNum (v : PyVal) : Except PyErr ℚ :=
  if v.isNum then .ok v.toQ
  else .error (.typeError "unorderable operand of non-numeric type")

/-- Python `not s.strip()`: true iff every character of `s` is
whitespace (equivalently, `s.strip()` is empty). -/
def pyStrBlank (s : String) : Bool :=
  s.data.all Char.isWhitespace

/-- Python's `round(q, 2)` under the spec's fixed policy (§9):
round-half-to-even at 2 decimal places, computed exactly on `ℚ`. -/
def roundHalfEven (q : ℚ) : ℤ :=
  let f : ℤ := ⌊q⌋
  let frac : ℚ := q - f
  if frac < 1/2 then f
  else if 1/2 < frac then f + 1
  else if f % 2 = 0 then f else f + 1

/-- Python `round(q, 2)`: round-half-to-even at two decimal places. -/
def round2 (q : ℚ) : ℚ :=
  (roundHalfEven (q * 100) : ℚ) / 100

/-- From `models/transaction.py` — a validated `Transaction` object.  Field
types are exactly the ones `Transaction.__init__` enforces. -/
structure Transaction where
  transaction_id : Int
  amount : ℚ
  transaction_type : String
  time_stamp : Nat
  currency : String
deriving DecidableEq

/-- Source `Transaction.__init__`: validates the dynamic arguments in source
order and either raises (`TypeError` / `ValueError`) or stores the
fields verbatim. -/
def Transaction.init (tid amount ttype ts cur : PyVal) : Except PyErr Transaction :=
  if ¬ tid.isInt then .error (.typeError "Transaction id must be an integer")
  else if ¬ amount.isNum then .error (.typeError "Amount must be a num")
  else if ¬ ttype.isStr then .error (.typeError "Transaction type must be an string")
  else if pyStrBlank ttype.asStr then .error (.valueError "Transaction type must not be empty")
  else if ¬ ts.isDt then .error (.typeError "Time_stamp must be an datetime")
  else if ¬ cur.isStr then .error (.typeError "Currency must be an string")
  else .ok ⟨tid.asInt, amount.toQ, ttype.asStr, ts.asDt, cur.asStr⟩

/-- Source `Transaction.to_dict`: the structured export of a transaction. -/
def Transaction.to_dict (t : Transaction) : PyVal :=
  .dict [("transaction_id", .int t.transaction_id),
         ("amount", .float t.amount),
         ("transaction_type", .str t.transaction_type),
         ("currency", .str t.currency),
         ("time_stamp", .iso t.time_stamp)]

/-- Python `d[k]` on a dict: the value, or a raised `KeyError`. -/
def pyDictGet (d : List (String × PyVal)) (k : String) : Except PyErr PyVal :=
  match d.lookup k with
  | some v => .ok v
  | Option.none => .error (.keyError k)

/-- Python `datetime.fromisoformat`: parses an ISO-8601 string back to a
`datetime`; raises `ValueError` on a malformed string and `TypeError`
on a non-string argument (standard library behaviour). -/
def fromisoformat (v : PyVal) : Except PyErr PyVal :=
  match v with
  | .iso n => .ok (.dt n)
  | .str _ => .error (.valueError "Invalid isoformat string")
  | _ => .error (.typeError "fromisoformat: argument must be str")

/-- Source `Transaction.from_dict`: reads the five fields (keyword arguments
evaluate in source order: transaction_id, amount, transaction_type,
currency, time_stamp), parses the timestamp, and runs
`Transaction.__init__`'s validation. -/
def Transaction.from_dict (data : PyVal) : Except PyErr Transaction := do
  match data with
  | .dict d =>
    let tid ← pyDictGet d "transaction_id"
    let amount ← pyDictGet d "amount"
    let ttype ← pyDictGet d "transaction_type"
    let cur ← pyDictGet d "currency"
    let tsRaw ← pyDictGet d "time_stamp"
    let ts ← fromisoformat tsRaw
    Transaction.init tid amount ttype ts cur
  | _ => .error (.typeError "transaction data is not a dict")

/-- From `models/account.py` — a `Bankaccount` object, with the field types
of the data model (`account_id : int`, numeric `balance`, string
`currency`, ordered transaction log). -/
structure Bankaccount where
  account_id : Int
  balance : ℚ
  currency : String
  transactions : List Transaction
deriving DecidableEq

/-- Source `Bankaccount.__init__`: stores the fields and starts an empty log. -/
def Bankaccount.init (account_id : Int) (balance : ℚ) (currency : String) : Bankaccount :=
  ⟨account_id, balance, currency, []⟩

/-- Accessor `Bankaccount.get_account_id`. -/
def Bankaccount.get_account_id (a : Bankaccount) : Int := a.account_id

/-- Accessor `Bankaccount.get_balance`. -/
def Bankaccount.get_balance (a : Bankaccount) : ℚ := a.balance

/-- Accessor `Bankaccount.get_transactions`. -/
def Bankaccount.get_transactions (a : Bankaccount) : List Transaction := a.transactions

/-- Source `Bankaccount.get_exchange_rate`: `1.0` when the currencies are
equal, otherwise a lookup in the fixed six-entry table (rates exact in
the `ℚ` model). -/
def Bankaccount.get_exchange_rate (from_currency to_currency : String) : Option ℚ :=
  let exchange_rates : List ((String × String) × ℚ) :=
    [(("USD", "UAN"), 39.5),
     (("UAN", "USD"), 1 / 39.5),
     (("USD", "EUR"), 0.92),
     (("EUR", "USD"), 1 / 0.92),
     (("UAN", "EUR"), (1 / 39.5) * 0.92),
     (("EUR", "UAN"), (1 / 0.92) * 39.5)]
  if from_currency = to_currency then some 1.0
  else exchange_rates.lookup (from_currency, to_currency)

/-- The six directed currency pairs of the exchange-rate table. -/
def ratePairs : List (String × String) :=
  [("USD", "UAN"), ("UAN", "USD"), ("USD", "EUR"),
   ("EUR", "USD"), ("UAN", "EUR"), ("EUR", "UAN")]

/-- Body of `Bankaccount.deposit` (the code inside the `try`): raises
`ValueError` on validation failure, otherwise credits the balance and
appends a `deposit` record.  Returns the outcome together with the
account state reached at return/raise time. -/
def Bankaccount.depositBody (a : Bankaccount) (amount : PyVal) (currency : String)
    (now : Nat) : Except PyErr String × Bankaccount :=
  if ¬ amount.isNum then
    (.error (.valueError "Amount must be of type int or float"), a)
  else if amount.toQ < 0 then
    (.error (.valueError "Amount cannot be negative"), a)
  else if currency ≠ a.currency then
    (.error (.valueError "Currency mismatch"), a)
  else
    let a1 : Bankaccount := { a with balance := a.balance + amount.toQ }
    match Transaction.init (.int (a1.transactions.length + 1)) amount
        (.str "deposit") (.dt now) (.str currency) with
    | .error e => (.error e, a1)
    | .ok tr => (.ok "Deposit successful", { a1 with transactions := a1.transactions ++ [tr] })

/-- Source `Bankaccount.deposit`: the body wrapped in `except Exception`,
which turns any raised exception into a returned error message. -/
def Bankaccount.deposit (a : Bankaccount) (amount : PyVal) (currency : String)
    (now : Nat) : String × Bankaccount :=
  match a.depositBody amount currency now with
  | (.ok s, a2) => (s, a2)
  | (.error e, a2) => ("Deposit error: " ++ e.msg, a2)

/-- Body of `Bankaccount.withdraw` (the code inside the `try`). -/
def Bankaccount.withdrawBody (a : Bankaccount) (amount : PyVal) (currency : String)
    (now : Nat) : Except PyErr String × Bankaccount :=
  if ¬ amount.isNum then
    (.error (.valueError "Value must be a number"), a)
  else if amount.toQ < 0 then
    (.error (.valueError "Amount cannot be negative"), a)
  else if currency ≠ a.currency then
    (.error (.valueError "Currency cannot be changed"), a)
  else if a.balance < amount.toQ then
    (.error (.valueError "Amount cannot be greater than balance"), a)
  else
    let a1 : Bankaccount := { a with balance := a.balance - amount.toQ }
    match Transaction.init (.int (a1.transactions.length + 1)) amount
        (.str "withdraw") (.dt now) (.str currency) with
    | .error e => (.error e, a1)
    | .ok tr => (.ok "Withdrawal was successful", { a1 with transactions := a1.transactions ++ [tr] })

/-- Source `Bankaccount.withdraw`: the body wrapped in `except Exception`
(the source formats the message with no space after the colon). -/
def Bankaccount.withdraw (a : Bankaccount) (amount : PyVal) (currency : String)
    (now : Nat) : String × Bankaccount :=
  match a.withdrawBody amount currency now with
  | (.ok s, a2) => (s, a2)
  | (.error e, a2) => ("Withdrawal error:" ++ e.msg, a2)

/-- Python `str(amount)` for the success message; numeric formatting of
messages is abstracted (no claim inspects it beyond the prefix). -/
def pyNumRepr (v : PyVal) : String :=
  match v with
  | .int n => toString n
  | .float q => toString q.num ++ "/" ++ toString q.den
  | _ => ""

/-- Python `int(c) if c.is_integer() else c` rendered into the message. -/
def formatConverted (q : ℚ) : String :=
  if q.den = 1 then toString q.num else toString q.num ++ "/" ++ toString q.den

/-- Body of `Bankaccount.transfer` (the code inside the `try`) for two
distinct account objects.  Raised `ValueError`s happen before any
mutation; each later step returns the state reached so far, so a raise
after a mutation would leave that mutation applied (Python semantics). -/
def Bankaccount.transferBody (self target_account : Bankaccount) (amount : PyVal)
    (currency : String) (now1 now2 : Nat) :
    Except PyErr String × Bankaccount × Bankaccount :=
  match pyCmpNum amount with
  | .error e => (.error e, self, target_account)
  | .ok q =>
    if q ≤ 0 then
      (.error (.valueError "The transfer amount must be greater than 0.."), self, target_account)
    else if currency ≠ self.currency then
      (.error (.valueError "The amount must be in your account currency.."), self, target_account)
    else if self.balance < q then
      (.error (.valueError "Insufficient funds for transfer."), self, target_account)
    else
      match Bankaccount.get_exchange_rate self.currency target_account.currency with
      | Option.none =>
        (.error (.valueError "Unable to transfer: no exchange rate available."), self, target_account)
      | some exchange_rate =>
        let converted_amount := round2 (q * exchange_rate)
        let self1 : Bankaccount := { self with balance := self.balance - q }
        match Transaction.init (.int (self1.transactions.length + 1)) amount
            (.str ("transfer_to_" ++ toString target_account.account_id))
            (.dt now1) (.str self.currency) with
        | .error e => (.error e, self1, target_account)
        | .ok tr1 =>
          let self2 : Bankaccount := { self1 with transactions := self1.transactions ++ [tr1] }
          let tgt1 : Bankaccount := { target_account with balance := target_account.balance + converted_amount }
          match Transaction.init (.int (tgt1.transactions.length + 1)) (.float converted_amount)
              (.str ("transfer_from_" ++ toString self.account_id))
              (.dt now2) (.str target_account.currency) with
          | .error e => (.error e, self2, tgt1)
          | .ok tr2 =>
            let tgt2 : Bankaccount := { tgt1 with transactions := tgt1.transactions ++ [tr2] }
            (.ok ("Transfer completed. " ++ pyNumRepr amount ++ " " ++ self.currency ++
                  " → " ++ formatConverted converted_amount ++ " " ++ target_account.currency),
             self2, tgt2)

/-- Source `Bankaccount.transfer` for two distinct account objects: the body
wrapped in `except ValueError` only — a `ValueError` becomes a returned
`"Transfer error: ..."` message, any other exception propagates to the
caller (`.error`). -/
def Bankaccount.transfer (self target_account : Bankaccount) (amount : PyVal)
    (currency : String) (now1 now2 : Nat) :
    Except PyErr String × Bankaccount × Bankaccount :=
  match self.transferBody target_account amount currency now1 now2 with
  | (.error (.valueError m), st) => (.ok ("Transfer error: " ++ m), st)
  | r => r

/-- Body of the aliased call `a.transfer(a, amount, currency)` — `self`
and `target_account` are the same Python object, so every mutation acts
on the one account, in source order. -/
def Bankaccount.transferSelfBody (self : Bankaccount) (amount : PyVal)
    (currency : String) (now1 now2 : Nat) : Except PyErr String × Bankaccount :=
  match pyCmpNum amount with
  | .error e => (.error e, self)
  | .ok q =>
    if q ≤ 0 then
      (.error (.valueError "The transfer amount must be greater than 0.."), self)
    else if currency ≠ self.currency then
      (.error (.valueError "The amount must be in your account currency.."), self)
    else if self.balance < q then
      (.error (.valueError "Insufficient funds for transfer."), self)
    else
      match Bankaccount.get_exchange_rate self.currency self.currency with
      | Option.none =>
        (.error (.valueError "Unable to transfer: no exchange rate available."), self)
      | some exchange_rate =>
        let converted_amount := round2 (q * exchange_rate)
        let a1 : Bankaccount := { self with balance := self.balance - q }
        match Transaction.init (.int (a1.transactions.length + 1)) amount
            (.str ("transfer_to_" ++ toString self.account_id))
            (.dt now1) (.str self.currency) with
        | .error e => (.error e, a1)
        | .ok tr1 =>
          let a2 : Bankaccount := { a1 with transactions := a1.transactions ++ [tr1] }
          let a3 : Bankaccount := { a2 with balance := a2.balance + converted_amount }
          match Transaction.init (.int (a3.transactions.length + 1)) (.float converted_amount)
              (.str ("transfer_from_" ++ toString self.account_id))
              (.dt now2) (.str self.currency) with
          | .error e => (.error e, a3)
          | .ok tr2 =>
            let a4 : Bankaccount := { a3 with transactions := a3.transactions ++ [tr2] }
            (.ok ("Transfer completed. " ++ pyNumRepr amount ++ " " ++ self.currency ++
                  " → " ++ formatConverted converted_amount ++ " " ++ self.currency), a4)

/-- The aliased call `a.transfer(a, amount, currency)` with the
`except ValueError` handler. -/
def Bankaccount.transfer_self (self : Bankaccount) (amount : PyVal)
    (currency : String) (now1 now2 : Nat) : Except PyErr String × Bankaccount :=
  match self.transferSelfBody amount currency now1 now2 with
  | (.error (.valueError m), st) => (.ok ("Transfer error: " ++ m), st)
  | r => r

/-- Source `Bankaccount.to_dict`: the structured export of an account. -/
def Bankaccount.to_dict (a : Bankaccount) : PyVal :=
  .dict [("account_id", .int a.account_id),
         ("balance", .float a.balance),
         ("currency", .str a.currency),
         ("transactions", .list (a.transactions.map Transaction.to_dict))]

/-- One iteration of `from_dict`'s re-attachment loop: parse one
transaction record and append it to the account's log. -/
def attachTransaction (acc : Bankaccount) (td : PyVal) : Except PyErr Bankaccount := do
  let t ← Transaction.from_dict td
  pure { acc with transactions := acc.transactions ++ [t] }

/-- Body of `Bankaccount.from_dict` (the code inside the `try`): reads
the three required keys (raising `KeyError` when one is missing),
constructs the account, and re-attaches each parsed transaction in
order.  `Bankaccount.__init__` stores the scalar fields without type
validation; the embedding's account type is the data model's, so a
snapshot whose `account_id`/`balance`/`currency` carry other runtime
types is outside the model and mapped to a `TypeError` here (no claim
exercises that path).  A non-list `transactions` value fails iteration
with a `TypeError`, as in Python. -/
def Bankaccount.fromDictBody (data : PyVal) : Except PyErr Bankaccount :=
  match data with
  | .dict d => do
    let aid ← pyDictGet d "account_id"
    let bal ← pyDictGet d "balance"
    let cur ← pyDictGet d "currency"
    if aid.isInt && bal.isNum && cur.isStr then
      let a0 : Bankaccount := ⟨aid.asInt, bal.toQ, cur.asStr, []⟩
      match (d.lookup "transactions").getD (.list []) with
      | .list trs => trs.foldlM attachTransaction a0
      | _ => .error (.typeError "transactions value is not iterable")
    else .error (.typeError "snapshot scalar field outside the data model")
  | _ => .error (.typeError "argument is not a dict")

/-- Source `Bankaccount.from_dict`: the body wrapped in
`except (ValueError, KeyError)`, which logs and returns `None`; any
other exception (notably a `TypeError` from `Transaction.__init__`)
propagates to the caller. -/
def Bankaccount.from_dict (data : PyVal) : Except PyErr (Option Bankaccount) :=
  match Bankaccount.fromDictBody data with
  | .ok a => .ok (some a)
  | .error (.valueError _) => .ok Option.none
  | .error (.keyError _) => .ok Option.none
  | .error e => .error e

/-- Boolean string-prefix test at the character level (used by the
replay interpretation of a log record's kind). -/
def strStarts (p s : String) : Bool :=
  p.data.isPrefixOf s.data

/-- The signed contribution of one log record to its account's balance,
as the spec's replay rule reads a record's kind: `deposit` and
`transfer_from_<id>` count positively, `withdraw` and `transfer_to_<id>`
negatively, each amount in the account's own currency. -/
def Transaction.signedAmount (t : Transaction) : ℚ :=
  if t.transaction_type = "deposit" then t.amount
  else if t.transaction_type = "withdraw" then -t.amount
  else if strStarts "transfer_from_" t.transaction_type then t.amount
  else if strStarts "transfer_to_" t.transaction_type then -t.amount
  else 0

/-- Replay of a transaction log: the signed sum of its records. -/
def ledgerSum (ts : List Transaction) : ℚ :=
  (ts.map Transaction.signedAmount).sum

/-- Predicate `Reachable b a`: the account `a` was created by the constructor with
initial balance `b` and has since been mutated only by `deposit`,
`withdraw`, and `transfer` (as source, as target, or aliased on both
sides), with arbitrary arguments and clock readings. -/
inductive Reachable : ℚ → Bankaccount → Prop where
  | init (id : Int) (bal : ℚ) (cur : String) : Reachable bal (Bankaccount.init id bal cur)
  | dep {b a} (amount : PyVal) (currency : String) (now : Nat) :
      Reachable b a → Reachable b (a.deposit amount currency now).2
  | wd {b a} (amount : PyVal) (currency : String) (now : Nat) :
      Reachable b a → Reachable b (a.withdraw amount currency now).2
  | xferSrc {b a} (tgt : Bankaccount) (amount : PyVal) (currency : String) (n1 n2 : Nat) :
      Reachable b a → Reachable b (Bankaccount.transfer a tgt amount currency n1 n2).2.1
  | xferTgt {b a} (src : Bankaccount) (amount : PyVal) (currency : String) (n1 n2 : Nat) :
      Reachable b a → Reachable b (Bankaccount.transfer src a amount currency n1 n2).2.2
  | xferSelf {b a} (amount : PyVal) (currency : String) (n1 n2 : Nat) :
      Reachable b a → Reachable b (a.transfer_self amount currency n1 n2).2

lemma strStarts_to_self (x : String) : strStarts "transfer_to_" ("transfer_to_" ++ x) = true := by
  rw [strStarts, String.data_append]
  exact List.isPrefixOf_iff_prefix.mpr (List.prefix_append _ _)

lemma strStarts_from_self (x : String) : strStarts "transfer_from_" ("transfer_from_" ++ x) = true := by
  rw [strStarts, String.data_append]
  exact List.isPrefixOf_iff_prefix.mpr (List.prefix_append _ _)

lemma strStarts_from_to (x : String) : strStarts "transfer_from_" ("transfer_to_" ++ x) = false := by
  rw [strStarts, String.data_append]
  rfl

lemma to_ne_deposit (x : String) : ("transfer_to_" ++ x) ≠ "deposit" := by
  intro h
  have h1 : strStarts "transfer_to_" "deposit" = true := h ▸ strStarts_to_self x
  exact absurd h1 (by decide)

lemma to_ne_withdraw (x : String) : ("transfer_to_" ++ x) ≠ "withdraw" := by
  intro h
  have h1 : strStarts "transfer_to_" "withdraw" = true := h ▸ strStarts_to_self x
  exact absurd h1 (by decide)

lemma from_ne_deposit (x : String) : ("transfer_from_" ++ x) ≠ "deposit" := by
  intro h
  have h1 : strStarts "transfer_from_" "deposit" = true := h ▸ strStarts_from_self x
  exact absurd h1 (by decide)

lemma from_ne_withdraw (x : String) : ("transfer_from_" ++ x) ≠ "withdraw" := by
  intro h
  have h1 : strStarts "transfer_from_" "withdraw" = true := h ▸ strStarts_from_self x
  exact absurd h1 (by decide)

lemma blank_to (x : String) : pyStrBlank ("transfer_to_" ++ x) = false := by
  rw [pyStrBlank, String.data_append]
  rfl

lemma blank_from (x : String) : pyStrBlank ("transfer_from_" ++ x) = false := by
  rw [pyStrBlank, String.data_append]
  rfl

lemma signedAmount_deposit (i : Int) (q : ℚ) (n : Nat) (c : String) :
    Transaction.signedAmount ⟨i, q, "deposit", n, c⟩ = q := rfl

lemma signedAmount_withdraw (i : Int) (q : ℚ) (n : Nat) (c : String) :
    Transaction.signedAmount ⟨i, q, "withdraw", n, c⟩ = -q := rfl

lemma signedAmount_to (i : Int) (q : ℚ) (n : Nat) (c x : String) :
    Transaction.signedAmount ⟨i, q, "transfer_to_" ++ x, n, c⟩ = -q := by
  rw [Transaction.signedAmount]
  simp [to_ne_deposit x, to_ne_withdraw x, strStarts_from_to, strStarts_to_self]

lemma signedAmount_from (i : Int) (q : ℚ) (n : Nat) (c x : String) :
    Transaction.signedAmount ⟨i, q, "transfer_from_" ++ x, n, c⟩ = q := by
  rw [Transaction.signedAmount]
  simp [from_ne_deposit x, from_ne_withdraw x, strStarts_from_self]

lemma ledgerSum_append (l : List Transaction) (t : Transaction) :
    ledgerSum (l ++ [t]) = ledgerSum l + t.signedAmount := by
  simp [ledgerSum]

lemma blank_deposit : pyStrBlank "deposit" = false := by decide

lemma blank_withdraw : pyStrBlank "withdraw" = false := by decide

lemma init_ok (n : Int) (amt : PyVal) (ty : String) (ts : Nat) (c : String)
    (hnum : amt.isNum = true) (hty : pyStrBlank ty = false) :
    Transaction.init (.int n) amt (.str ty) (.dt ts) (.str c) = .ok ⟨n, amt.toQ, ty, ts, c⟩ := by
  simp [Transaction.init, PyVal.isInt, PyVal.isStr, PyVal.isDt, hnum, hty,
    PyVal.asInt, PyVal.asStr, PyVal.asDt]

lemma deposit_spec (a : Bankaccount) (amt : PyVal) (cur : String) (now : Nat) :
    a.deposit amt cur now =
      if ¬ amt.isNum then ("Deposit error: Amount must be of type int or float", a)
      else if amt.toQ < 0 then ("Deposit error: Amount cannot be negative", a)
      else if cur ≠ a.currency then ("Deposit error: Currency mismatch", a)
      else ("Deposit successful",
        { a with balance := a.balance + amt.toQ,
                 transactions := a.transactions ++
                   [⟨((a.transactions.length + 1 : ℕ) : ℤ), amt.toQ, "deposit", now, cur⟩] }) := by
  by_cases h1 : amt.isNum = true
  · by_cases h2 : amt.toQ < 0
    · simp [Bankaccount.deposit, Bankaccount.depositBody, h1, h2, PyErr.msg]
    · by_cases h3 : cur = a.currency
      · simp [Bankaccount.deposit, Bankaccount.depositBody, h1, h2, h3,
          init_ok _ _ _ _ _ h1 blank_deposit]
      · simp [Bankaccount.deposit, Bankaccount.depositBody, h1, h2, h3, PyErr.msg]
  · simp [Bankaccount.deposit, Bankaccount.depositBody, h1, PyErr.msg]

lemma withdraw_spec (a : Bankaccount) (amt : PyVal) (cur : String) (now : Nat) :
    a.withdraw amt cur now =
      if ¬ amt.isNum then ("Withdrawal error:Value must be a number", a)
      else if amt.toQ < 0 then ("Withdrawal error:Amount cannot be negative", a)
      else if cur ≠ a.currency then ("Withdrawal error:Currency cannot be changed", a)
      else if a.balance < amt.toQ then ("Withdrawal error:Amount cannot be greater than balance", a)
      else ("Withdrawal was successful",
        { a with balance := a.balance - amt.toQ,
                 transactions := a.transactions ++
                   [⟨((a.transactions.length + 1 : ℕ) : ℤ), amt.toQ, "withdraw", now, cur⟩] }) := by
  by_cases h1 : amt.isNum = true
  · by_cases h2 : amt.toQ < 0
    · simp [Bankaccount.withdraw, Bankaccount.withdrawBody, h1, h2, PyErr.msg]
    · by_cases h3 : cur = a.currency
      · by_cases h4 : a.balance < amt.toQ
        · simp [Bankaccount.withdraw, Bankaccount.withdrawBody, h1, h2, h3, h4, PyErr.msg]
        · simp [Bankaccount.withdraw, Bankaccount.withdrawBody, h1, h2, h3, h4,
            init_ok _ _ _ _ _ h1 blank_withdraw]
      · simp [Bankaccount.withdraw, Bankaccount.withdrawBody, h1, h2, h3, PyErr.msg]
  · simp [Bankaccount.withdraw, Bankaccount.withdrawBody, h1, PyErr.msg]

lemma init_ok_float (n : Int) (q : ℚ) (ty : String) (ts : Nat) (c : String)
    (hty : pyStrBlank ty = false) :
    Transaction.init (.int n) (.float q) (.str ty) (.dt ts) (.str c) = .ok ⟨n, q, ty, ts, c⟩ :=
  init_ok n (.float q) ty ts c rfl hty

lemma transfer_spec (src tgt : Bankaccount) (amt : PyVal) (cur : String) (n1 n2 : Nat) :
    Bankaccount.transfer src tgt amt cur n1 n2 =
      if ¬ amt.isNum then
        (.error (.typeError "unorderable operand of non-numeric type"), src, tgt)
      else if amt.toQ ≤ 0 then
        (.ok "Transfer error: The transfer amount must be greater than 0..", src, tgt)
      else if cur ≠ src.currency then
        (.ok "Transfer error: The amount must be in your account currency..", src, tgt)
      else if src.balance < amt.toQ then
        (.ok "Transfer error: Insufficient funds for transfer.", src, tgt)
      else
        match Bankaccount.get_exchange_rate src.currency tgt.currency with
        | Option.none =>
          (.ok "Transfer error: Unable to transfer: no exchange rate available.", src, tgt)
        | some rate =>
          (.ok ("Transfer completed. " ++ pyNumRepr amt ++ " " ++ src.currency ++ " → " ++
                formatConverted (round2 (amt.toQ * rate)) ++ " " ++ tgt.currency),
           { src with balance := src.balance - amt.toQ,
                      transactions := src.transactions ++
                        [⟨((src.transactions.length + 1 : ℕ) : ℤ), amt.toQ,
                          "transfer_to_" ++ toString tgt.account_id, n1, src.currency⟩] },
           { tgt with balance := tgt.balance + round2 (amt.toQ * rate),
                      transactions := tgt.transactions ++
                        [⟨((tgt.transactions.length + 1 : ℕ) : ℤ), round2 (amt.toQ * rate),
                          "transfer_from_" ++ toString src.account_id, n2, tgt.currency⟩] }) := by
  by_cases h1 : amt.isNum = true
  · by_cases h2 : amt.toQ ≤ 0
    · simp [Bankaccount.transfer, Bankaccount.transferBody, pyCmpNum, h1, h2]
    · by_cases h3 : cur = src.currency
      · by_cases h4 : src.balance < amt.toQ
        · simp [Bankaccount.transfer, Bankaccount.transferBody, pyCmpNum, h1, h2, h3, h4]
        · rcases hr : Bankaccount.get_exchange_rate src.currency tgt.currency with _ | rate
          · simp [Bankaccount.transfer, Bankaccount.transferBody, pyCmpNum, h1, h2, h3, h4, hr]
          · simp [Bankaccount.transfer, Bankaccount.transferBody, pyCmpNum, h1, h2, h3, h4, hr,
              init_ok _ _ _ _ _ h1 (blank_to (toString tgt.account_id)),
              init_ok_float _ _ _ _ _ (blank_from (toString src.account_id))]
      · simp [Bankaccount.transfer, Bankaccount.transferBody, pyCmpNum, h1, h2, h3]
  · simp [Bankaccount.transfer, Bankaccount.transferBody, pyCmpNum, h1]

lemma transferSelf_spec (a : Bankaccount) (amt : PyVal) (cur : String) (n1 n2 : Nat) :
    a.transfer_self amt cur n1 n2 =
      if ¬ amt.isNum then
        (.error (.typeError "unorderable operand of non-numeric type"), a)
      else if amt.toQ ≤ 0 then
        (.ok "Transfer error: The transfer amount must be greater than 0..", a)
      else if cur ≠ a.currency then
        (.ok "Transfer error: The amount must be in your account currency..", a)
      else if a.balance < amt.toQ then
        (.ok "Transfer error: Insufficient funds for transfer.", a)
      else
        (.ok ("Transfer completed. " ++ pyNumRepr amt ++ " " ++ a.currency ++ " → " ++
              formatConverted (round2 amt.toQ) ++ " " ++ a.currency),
         { a with balance := a.balance - amt.toQ + round2 amt.toQ,
                  transactions := a.transactions ++
                    [⟨((a.transactions.length + 1 : ℕ) : ℤ), amt.toQ,
                      "transfer_to_" ++ toString a.account_id, n1, a.currency⟩,
                     ⟨((a.transactions.length + 2 : ℕ) : ℤ), round2 amt.toQ,
                      "transfer_from_" ++ toString a.account_id, n2, a.currency⟩] }) := by
  have hone : (1.0 : ℚ) = 1 := by norm_num
  by_cases h1 : amt.isNum = true
  · by_cases h2 : amt.toQ ≤ 0
    · simp [Bankaccount.transfer_self, Bankaccount.transferSelfBody, pyCmpNum, h1, h2]
    · by_cases h3 : cur = a.currency
      · by_cases h4 : a.balance < amt.toQ
        · simp [Bankaccount.transfer_self, Bankaccount.transferSelfBody, pyCmpNum, h1, h2, h3, h4]
        · simp [Bankaccount.transfer_self, Bankaccount.transferSelfBody, pyCmpNum, h1, h2, h3, h4,
            Bankaccount.get_exchange_rate, hone,
            init_ok _ _ _ _ _ h1 (blank_to (toString a.account_id)),
            init_ok_float _ _ _ _ _ (blank_from (toString a.account_id))]
          omega
      · simp [Bankaccount.transfer_self, Bankaccount.transferSelfBody, pyCmpNum, h1, h2, h3]
  · simp [Bankaccount.transfer_self, Bankaccount.transferSelfBody, pyCmpNum, h1]

lemma roundHalfEven_intCast (n : ℤ) : roundHalfEven (n : ℚ) = n := by
  simp [roundHalfEven, Int.floor_intCast]

lemma round2_den_one (q : ℚ) (h : (q * 100).den = 1) : round2 q = q := by
  have h2 : ((q * 100).num : ℚ) = q * 100 := Rat.coe_int_num_of_den_eq_one h
  rw [round2]
  rw [show q * 100 = ((q * 100).num : ℚ) from h2.symm, roundHalfEven_intCast, h2]
  field_simp

lemma delta_deposit (a : Bankaccount) (amt : PyVal) (cur : String) (now : Nat) :
    (a.deposit amt cur now).2.balance - ledgerSum (a.deposit amt cur now).2.transactions
      = a.balance - ledgerSum a.transactions := by
  rw [deposit_spec]
  split_ifs
  all_goals simp [ledgerSum_append, signedAmount_deposit]

lemma delta_withdraw (a : Bankaccount) (amt : PyVal) (cur : String) (now : Nat) :
    (a.withdraw amt cur now).2.balance - ledgerSum (a.withdraw amt cur now).2.transactions
      = a.balance - ledgerSum a.transactions := by
  rw [withdraw_spec]
  split_ifs
  all_goals simp [ledgerSum_append, signedAmount_withdraw]
  all_goals ring

lemma delta_transfer_src (src tgt : Bankaccount) (amt : PyVal) (cur : String) (n1 n2 : Nat) :
    (Bankaccount.transfer src tgt amt cur n1 n2).2.1.balance
        - ledgerSum (Bankaccount.transfer src tgt amt cur n1 n2).2.1.transactions
      = src.balance - ledgerSum src.transactions := by
  rw [transfer_spec]
  rcases hr : Bankaccount.get_exchange_rate src.currency tgt.currency with _ | rate
  all_goals split_ifs
  all_goals simp [ledgerSum_append, signedAmount_to]
  all_goals ring

lemma delta_transfer_tgt (src tgt : Bankaccount) (amt : PyVal) (cur : String) (n1 n2 : Nat) :
    (Bankaccount.transfer src tgt amt cur n1 n2).2.2.balance
        - ledgerSum (Bankaccount.transfer src tgt amt cur n1 n2).2.2.transactions
      = tgt.balance - ledgerSum tgt.transactions := by
  rw [transfer_spec]
  rcases hr : Bankaccount.get_exchange_rate src.currency tgt.currency with _ | rate
  all_goals split_ifs
  all_goals simp [ledgerSum_append, signedAmount_from]

lemma delta_transfer_self (a : Bankaccount) (amt : PyVal) (cur : String) (n1 n2 : Nat) :
    (a.transfer_self amt cur n1 n2).2.balance
        - ledgerSum (a.transfer_self amt cur n1 n2).2.transactions
      = a.balance - ledgerSum a.transactions := by
  rw [transferSelf_spec]
  split_ifs
  all_goals simp [ledgerSum, signedAmount_to, signedAmount_from]
  all_goals ring

lemma tr_roundtrip (t : Transaction) (h : pyStrBlank t.transaction_type = false) :
    Transaction.from_dict t.to_dict = .ok t := by
  simp [Transaction.from_dict, Transaction.to_dict, pyDictGet, List.lookup, fromisoformat,
    Transaction.init, PyVal.isInt, PyVal.isNum, PyVal.isStr, PyVal.isDt, PyVal.asInt,
    PyVal.asStr, PyVal.asDt, PyVal.toQ, h, bind, Except.bind, pure, Except.pure]

lemma except_bind_ok {ε α β : Type} (a : α) (f : α → Except ε β) :
    (Except.ok a : Except ε α) >>= f = f a := rfl

lemma except_pure_bind {ε α β : Type} (a : α) (f : α → Except ε β) :
    (pure a : Except ε α) >>= f = f a := rfl

lemma attachTransaction_ok (acc : Bankaccount) (t : Transaction)
    (h : pyStrBlank t.transaction_type = false) :
    attachTransaction acc t.to_dict
      = .ok { acc with transactions := acc.transactions ++ [t] } := by
  simp [attachTransaction, tr_roundtrip t h, bind, Except.bind, pure, Except.pure]

lemma from_dict_fold (ts : List Transaction) (acc : Bankaccount)
    (h : ∀ t ∈ ts, pyStrBlank t.transaction_type = false) :
    List.foldlM attachTransaction acc (ts.map Transaction.to_dict)
      = Except.ok { acc with transactions := acc.transactions ++ ts } := by
  induction ts generalizing acc with
  | nil =>
    simp only [List.map_nil, List.foldlM_nil, List.append_nil]
    rfl
  | cons t ts ih =>
    have ht : pyStrBlank t.transaction_type = false := h t (by simp)
    have hrest : ∀ x ∈ ts, pyStrBlank x.transaction_type = false :=
      fun x hx => h x (by simp [hx])
    rw [List.map_cons, List.foldlM_cons, attachTransaction_ok _ _ ht, except_bind_ok,
      ih _ hrest]
    simp [List.append_assoc]

/-- C1: Transfer is atomic.  For every pair of (data-model) accounts,
every amount, currency, and clock readings, a call to `transfer` either
leaves both accounts exactly as they were (every validation failure and
the uncaught `TypeError` on a non-numeric amount happen before any
mutation), or debits the source by the amount with a
`transfer_to_<target.id>` record appended and credits the target by the
converted amount with a `transfer_from_<source.id>` record appended —
never one side without the other. -/
theorem transfer_atomic (src tgt : Bankaccount) (amt : PyVal) (cur : String) (n1 n2 : Nat) :
    ((Bankaccount.transfer src tgt amt cur n1 n2).2.1 = src ∧
     (Bankaccount.transfer src tgt amt cur n1 n2).2.2 = tgt) ∨
    (∃ rate, Bankaccount.get_exchange_rate src.currency tgt.currency = some rate ∧
      (Bankaccount.transfer src tgt amt cur n1 n2).2.1 =
        { src with balance := src.balance - amt.toQ,
                   transactions := src.transactions ++
                     [⟨((src.transactions.length + 1 : ℕ) : ℤ), amt.toQ,
                       "transfer_to_" ++ toString tgt.account_id, n1, src.currency⟩] } ∧
      (Bankaccount.transfer src tgt amt cur n1 n2).2.2 =
        { tgt with balance := tgt.balance + round2 (amt.toQ * rate),
                   transactions := tgt.transactions ++
                     [⟨((tgt.transactions.length + 1 : ℕ) : ℤ), round2 (amt.toQ * rate),
                       "transfer_from_" ++ toString src.account_id, n2, tgt.currency⟩] }) := by
  rw [transfer_spec]
  rcases hr : Bankaccount.get_exchange_rate src.currency tgt.currency with _ | rate
  all_goals split_ifs
  all_goals simp [hr]

/-- C2: Ledger replay invariant.  Every account created by the
constructor and mutated only by deposit, withdraw, and transfer (as
source, as target, or aliased) satisfies: current balance = initial
balance + signed sum of the recorded transaction amounts. -/
theorem ledger_replay_invariant (b : ℚ) (a : Bankaccount) (h : Reachable b a) :
    a.balance = b + ledgerSum a.transactions := by
  induction h with
  | init id bal cur => simp [Bankaccount.init, ledgerSum]
  | @dep b0 a0 amount currency now h ih =>
    have hd := delta_deposit a0 amount currency now
    rw [ih] at hd
    linarith
  | @wd b0 a0 amount currency now h ih =>
    have hd := delta_withdraw a0 amount currency now
    rw [ih] at hd
    linarith
  | @xferSrc b0 a0 tgt amount currency n1 n2 h ih =>
    have hd := delta_transfer_src a0 tgt amount currency n1 n2
    rw [ih] at hd
    linarith
  | @xferTgt b0 a0 src amount currency n1 n2 h ih =>
    have hd := delta_transfer_tgt src a0 amount currency n1 n2
    rw [ih] at hd
    linarith
  | @xferSelf b0 a0 amount currency n1 n2 h ih =>
    have hd := delta_transfer_self a0 amount currency n1 n2
    rw [ih] at hd
    linarith

/-- Witness for C2: a freshly constructed account (balance 500) after a
deposit of 100 satisfies the replay invariant. -/
theorem ledger_replay_invariant_witness :
    ((Bankaccount.init 1 500 "USD").deposit (.int 100) "USD" 0).2.balance =
      500 + ledgerSum ((Bankaccount.init 1 500 "USD").deposit (.int 100) "USD" 0).2.transactions :=
  ledger_replay_invariant 500 _
    (Reachable.dep (.int 100) "USD" 0 (Reachable.init 1 500 "USD"))

/-- C4: `withdraw` validates in source order, short-circuiting on the
first failure and reporting that failure's reason (numeric, then
non-negative, then currency, then funds), every failure leaving balance
and log unchanged; an account with balance 500 withdrawing 1000 is
rejected with the insufficient-funds reason, balance still 500, log
unchanged. -/
theorem withdraw_validation_order (a : Bankaccount) (amt : PyVal) (cur : String) (now : Nat) :
    (amt.isNum = false →
      a.withdraw amt cur now = ("Withdrawal error:Value must be a number", a)) ∧
    (amt.isNum = true → amt.toQ < 0 →
      a.withdraw amt cur now = ("Withdrawal error:Amount cannot be negative", a)) ∧
    (amt.isNum = true → 0 ≤ amt.toQ → cur ≠ a.currency →
      a.withdraw amt cur now = ("Withdrawal error:Currency cannot be changed", a)) ∧
    (amt.isNum = true → 0 ≤ amt.toQ → cur = a.currency → a.balance < amt.toQ →
      a.withdraw amt cur now = ("Withdrawal error:Amount cannot be greater than balance", a)) ∧
    (Bankaccount.init 1 500 "USD").withdraw (.int 1000) "USD" 0 =
      ("Withdrawal error:Amount cannot be greater than balance", Bankaccount.init 1 500 "USD") := by
  refine ⟨?_, ?_, ?_, ?_, by decide⟩
  · intro h1
    rw [withdraw_spec]
    simp [h1]
  · intro h1 h2
    rw [withdraw_spec]
    simp [h1, h2]
  · intro h1 h2 h3
    rw [withdraw_spec]
    simp [h1, not_lt.mpr h2, h3]
  · intro h1 h2 h3 h4
    rw [withdraw_spec]
    simp [h1, not_lt.mpr h2, h3, h4]

/-- Witness for C4: the insufficient-funds conjunct applied to the
balance-500 / withdraw-1000 scenario. -/
theorem withdraw_validation_order_witness :
    (Bankaccount.init 1 500 "USD").withdraw (.int 1000) "USD" 3 =
      ("Withdrawal error:Amount cannot be greater than balance", Bankaccount.init 1 500 "USD") :=
  (withdraw_validation_order (Bankaccount.init 1 500 "USD") (.int 1000) "USD" 3).2.2.2.1
    rfl (by decide) rfl (by decide)

/-- C5: every valid deposit (numeric amount ≥ 0 in the account's own
currency) succeeds, adds the amount to the balance, and appends exactly
one `deposit` record carrying the deposited amount and currency with
`id = previous log length + 1`. -/
theorem deposit_valid_succeeds (a : Bankaccount) (amt : PyVal) (cur : String) (now : Nat)
    (hnum : amt.isNum = true) (hpos : 0 ≤ amt.toQ) (hcur : cur = a.currency) :
    a.deposit amt cur now =
      ("Deposit successful",
       { a with balance := a.balance + amt.toQ,
                transactions := a.transactions ++
                  [⟨((a.transactions.length + 1 : ℕ) : ℤ), amt.toQ, "deposit", now, cur⟩] }) := by
  rw [deposit_spec]
  simp [hnum, hcur, not_lt.mpr hpos]

/-- Witness for C5: depositing 100 USD into a balance-500 USD account. -/
theorem deposit_valid_succeeds_witness :
    (PyVal.int 100).isNum = true ∧ 0 ≤ (PyVal.int 100).toQ ∧
    "USD" = (Bankaccount.init 1 500 "USD").currency ∧
    (Bankaccount.init 1 500 "USD").deposit (.int 100) "USD" 7 =
      ("Deposit successful", ⟨1, 600, "USD", [⟨1, 100, "deposit", 7, "USD"⟩]⟩) := by
  refine ⟨rfl, by decide, rfl, ?_⟩
  have h := deposit_valid_succeeds (Bankaccount.init 1 500 "USD") (.int 100) "USD" 7
    rfl (by decide) rfl
  rw [h]
  norm_num [Bankaccount.init, PyVal.toQ]

/-- C6: a successful transfer credits the target with
`round(amount × rate, 2)`; concretely, A (balance 500, USD) transferring
99 USD to B (balance 0, EUR) leaves A at 401 and B at
`round(99 × 0.92, 2) = 91.08`, A's log ending in a `transfer_to_2`
record of amount 99 and B's log ending in a `transfer_from_1` record of
amount 91.08. -/
theorem transfer_conversion_rounding (src tgt : Bankaccount) (amt : PyVal) (cur : String)
    (n1 n2 : Nat) (rate : ℚ)
    (hnum : amt.isNum = true) (hpos : 0 < amt.toQ) (hcur : cur = src.currency)
    (hbal : amt.toQ ≤ src.balance)
    (hrate : Bankaccount.get_exchange_rate src.currency tgt.currency = some rate) :
    (Bankaccount.transfer src tgt amt cur n1 n2).2.2.balance
        = tgt.balance + round2 (amt.toQ * rate) ∧
    (∃ m, (Bankaccount.transfer src tgt amt cur n1 n2).1 = .ok ("Transfer completed. " ++ m)) ∧
    (Bankaccount.transfer src tgt amt cur n1 n2).2.1.balance = src.balance - amt.toQ ∧
    (Bankaccount.transfer src tgt amt cur n1 n2).2.1.transactions
        = src.transactions ++
          [⟨((src.transactions.length + 1 : ℕ) : ℤ), amt.toQ,
            "transfer_to_" ++ toString tgt.account_id, n1, src.currency⟩] ∧
    (Bankaccount.transfer src tgt amt cur n1 n2).2.2.transactions
        = tgt.transactions ++
          [⟨((tgt.transactions.length + 1 : ℕ) : ℤ), round2 (amt.toQ * rate),
            "transfer_from_" ++ toString src.account_id, n2, tgt.currency⟩] := by
  rw [transfer_spec, hrate]
  simp [hnum, hcur, not_le.mpr hpos, not_lt.mpr hbal]
  exact ⟨pyNumRepr amt ++ (" " ++ (src.currency ++ (" → " ++
    (formatConverted (round2 (amt.toQ * rate)) ++ (" " ++ tgt.currency))))),
    by simp [String.append_assoc]⟩

/-- Witness for C6: the spec's concrete scenario — 99 USD from a
balance-500 USD account to a balance-0 EUR account converts at 0.92 and
rounds to 91.08, leaving 401 and 91.08. -/
theorem transfer_conversion_rounding_witness :
    (Bankaccount.transfer (Bankaccount.init 1 500 "USD") (Bankaccount.init 2 0 "EUR")
        (.int 99) "USD" 3 4).2.2.balance = 0 + round2 (99 * 0.92) ∧
    round2 ((99 : ℚ) * 0.92) = 91.08 ∧
    (Bankaccount.transfer (Bankaccount.init 1 500 "USD") (Bankaccount.init 2 0 "EUR")
        (.int 99) "USD" 3 4).2.1.balance = 500 - 99 ∧
    (Bankaccount.transfer (Bankaccount.init 1 500 "USD") (Bankaccount.init 2 0 "EUR")
        (.int 99) "USD" 3 4).2.1.transactions = [⟨1, 99, "transfer_to_2", 3, "USD"⟩] ∧
    (Bankaccount.transfer (Bankaccount.init 1 500 "USD") (Bankaccount.init 2 0 "EUR")
        (.int 99) "USD" 3 4).2.2.transactions = [⟨1, round2 (99 * 0.92), "transfer_from_1", 4, "EUR"⟩] := by
  have h := transfer_conversion_rounding (Bankaccount.init 1 500 "USD")
    (Bankaccount.init 2 0 "EUR") (.int 99) "USD" 3 4 0.92
    rfl (by norm_num [PyVal.toQ]) rfl (by norm_num [PyVal.toQ, Bankaccount.init]) rfl
  obtain ⟨h1, h2, h3, h4, h5⟩ := h
  refine ⟨?_, ?_, ?_, ?_, ?_⟩
  · rw [h1]
    norm_num [Bankaccount.init, PyVal.toQ]
  · have hq : ((99 : ℚ) * 0.92) * 100 = ((9108 : ℤ) : ℚ) := by norm_num
    rw [round2, hq, roundHalfEven_intCast]
    norm_num
  · rw [h3]
    norm_num [Bankaccount.init, PyVal.toQ]
  · rw [h4]
    norm_num [Bankaccount.init, PyVal.toQ]
    decide
  · rw [h5]
    norm_num [Bankaccount.init, PyVal.toQ]
    decide

/-- C7: the exchange-rate lookup returns 1.0 whenever the two currency
strings are equal (also for currencies outside the table); for distinct
currencies it consults exactly the fixed six-pair table (reverse
directions as exact reciprocals, UAN↔EUR composed through USD), so
USD→UAN is 39.5, and any distinct pair outside the six directed pairs —
e.g. USD→GBP — is not found. -/
theorem exchange_rate_table :
    (∀ c : String, Bankaccount.get_exchange_rate c c = some 1.0) ∧
    Bankaccount.get_exchange_rate "USD" "UAN" = some 39.5 ∧
    Bankaccount.get_exchange_rate "USD" "EUR" = some 0.92 ∧
    Bankaccount.get_exchange_rate "UAN" "USD" = some (1 / 39.5) ∧
    Bankaccount.get_exchange_rate "EUR" "USD" = some (1 / 0.92) ∧
    Bankaccount.get_exchange_rate "UAN" "EUR" = some ((1 / 39.5) * 0.92) ∧
    Bankaccount.get_exchange_rate "EUR" "UAN" = some ((1 / 0.92) * 39.5) ∧
    Bankaccount.get_exchange_rate "USD" "GBP" = Option.none ∧
    (∀ c1 c2 : String, c1 ≠ c2 → (c1, c2) ∉ ratePairs →
      Bankaccount.get_exchange_rate c1 c2 = Option.none) := by
  refine ⟨?_, rfl, rfl, rfl, rfl, rfl, rfl, rfl, ?_⟩
  · intro c
    simp [Bankaccount.get_exchange_rate]
  · intro c1 c2 hne hmem
    simp only [ratePairs, List.mem_cons, List.not_mem_nil, or_false] at hmem
    push_neg at hmem
    obtain ⟨m1, m2, m3, m4, m5, m6⟩ := hmem
    have e1 := beq_eq_false_iff_ne.mpr m1
    have e2 := beq_eq_false_iff_ne.mpr m2
    have e3 := beq_eq_false_iff_ne.mpr m3
    have e4 := beq_eq_false_iff_ne.mpr m4
    have e5 := beq_eq_false_iff_ne.mpr m5
    have e6 := beq_eq_false_iff_ne.mpr m6
    simp [Bankaccount.get_exchange_rate, hne, List.lookup, e1, e2, e3, e4, e5, e6]

/-- Witness for C7: the distinct-pair clause applied to USD→GBP. -/
theorem exchange_rate_table_witness :
    Bankaccount.get_exchange_rate "USD" "GBP" = Option.none :=
  exchange_rate_table.2.2.2.2.2.2.2.2 "USD" "GBP" (by decide) (by decide)

/-- C10: a self-transfer of a positive numeric amount `m ≤ balance`,
exactly representable at 2 decimal places, in the account's own
currency, succeeds, leaves the balance unchanged (debit of `m` exactly
offset by the credit of `round(m × 1.0, 2) = m`), and appends exactly
two records: `transfer_to_<id>` with amount `m` and
`id = old length + 1`, then `transfer_from_<id>` with amount `m` and
`id = old length + 2`. -/
theorem self_transfer_identity (a : Bankaccount) (amt : PyVal) (n1 n2 : Nat)
    (hnum : amt.isNum = true) (hpos : 0 < amt.toQ) (hle : amt.toQ ≤ a.balance)
    (hrep : (amt.toQ * 100).den = 1) :
    a.transfer_self amt a.currency n1 n2 =
      (.ok ("Transfer completed. " ++ pyNumRepr amt ++ " " ++ a.currency ++ " → " ++
            formatConverted amt.toQ ++ " " ++ a.currency),
       { a with transactions := a.transactions ++
           [⟨((a.transactions.length + 1 : ℕ) : ℤ), amt.toQ,
             "transfer_to_" ++ toString a.account_id, n1, a.currency⟩,
            ⟨((a.transactions.length + 2 : ℕ) : ℤ), amt.toQ,
             "transfer_from_" ++ toString a.account_id, n2, a.currency⟩] }) := by
  have hr2 : round2 amt.toQ = amt.toQ := round2_den_one _ hrep
  rw [transferSelf_spec]
  simp [hnum, not_le.mpr hpos, not_lt.mpr hle, hr2]

/-- Witness for C10: a balance-500 USD account transferring 50 USD to
itself keeps balance 500 and logs the two legs with ids 1 and 2. -/
theorem self_transfer_identity_witness :
    (PyVal.int 50).isNum = true ∧ 0 < (PyVal.int 50).toQ ∧
    (PyVal.int 50).toQ ≤ (Bankaccount.init 1 500 "USD").balance ∧
    ((PyVal.int 50).toQ * 100).den = 1 ∧
    (Bankaccount.init 1 500 "USD").transfer_self (.int 50) "USD" 8 9 =
      (.ok ("Transfer completed. " ++ pyNumRepr (.int 50) ++ " USD → " ++
            formatConverted (PyVal.int 50).toQ ++ " USD"),
       ⟨1, 500, "USD", [⟨1, 50, "transfer_to_1", 8, "USD"⟩, ⟨2, 50, "transfer_from_1", 9, "USD"⟩]⟩) := by
  have hrep : ((PyVal.int 50).toQ * 100).den = 1 := by
    norm_num [PyVal.toQ]
  have h := self_transfer_identity (Bankaccount.init 1 500 "USD") (.int 50) 8 9
    rfl (by norm_num [PyVal.toQ]) (by norm_num [PyVal.toQ, Bankaccount.init]) hrep
  rw [show (Bankaccount.init 1 500 "USD").currency = "USD" from rfl] at h
  refine ⟨rfl, by norm_num [PyVal.toQ], by norm_num [PyVal.toQ, Bankaccount.init], hrep, ?_⟩
  rw [h]
  norm_num [Bankaccount.init, PyVal.toQ]
  decide

/-- C8: serialization round-trip — for every account whose records have
the (always-true in practice) non-blank kinds that
`Transaction.__init__` enforces, `from_dict (to_dict a)` reproduces the
account exactly: id, balance, currency, and the full transaction log in
order with every field intact. -/
theorem export_roundtrip (a : Bankaccount)
    (h : ∀ t ∈ a.transactions, pyStrBlank t.transaction_type = false) :
    Bankaccount.from_dict a.to_dict = .ok (some a) := by
  have hb : Bankaccount.fromDictBody a.to_dict = .ok a := by
    simp only [Bankaccount.fromDictBody, Bankaccount.to_dict, pyDictGet, List.lookup,
      PyVal.isInt, PyVal.isNum, PyVal.isStr, PyVal.asInt, PyVal.asStr, PyVal.toQ,
      bind, Except.bind]
    simp only [beq_self_eq_true, String.reduceBEq, Bool.and_self, if_true, ite_true,
      Bool.true_and, reduceCtorEq, reduceIte, Option.getD_some]
    rw [from_dict_fold a.transactions ⟨a.account_id, a.balance, a.currency, []⟩ h]
    simp
  simp [Bankaccount.from_dict, hb]

/-- Witness for C8: round-trip of a concrete account holding one
deposit record. -/
theorem export_roundtrip_witness :
    (∀ t ∈ (⟨1, 600, "USD", [⟨1, 100, "deposit", 7, "USD"⟩]⟩ : Bankaccount).transactions,
        pyStrBlank t.transaction_type = false) ∧
    Bankaccount.from_dict
        (Bankaccount.to_dict ⟨1, 600, "USD", [⟨1, 100, "deposit", 7, "USD"⟩]⟩)
      = .ok (some ⟨1, 600, "USD", [⟨1, 100, "deposit", 7, "USD"⟩]⟩) :=
  ⟨by decide, export_roundtrip _ (by decide)⟩

/-- C3 (code bug): `deposit` and `withdraw` wrap their bodies in a
catch-all handler and return an error message for a non-numeric amount,
but `transfer` performs no numeric-type validation and catches only
`ValueError`, so the comparison `amount <= 0` raises a `TypeError` that
propagates to the caller. -/
theorem transfer_raises_on_non_numeric :
    ((Bankaccount.init 1 500 "USD").deposit (.str "abc") "USD" 0).1
        = "Deposit error: Amount must be of type int or float" ∧
    ((Bankaccount.init 1 500 "USD").withdraw (.str "abc") "USD" 0).1
        = "Withdrawal error:Value must be a number" ∧
    (Bankaccount.transfer (Bankaccount.init 1 500 "USD") (Bankaccount.init 2 300 "USD")
        (.str "abc") "USD" 0 0).1
        = .error (.typeError "unorderable operand of non-numeric type") :=
  ⟨rfl, rfl, rfl⟩

/-- C9 (code bug): `from_dict` catches only `ValueError` and `KeyError`
(returning `None`, e.g. for a snapshot missing `account_id`), but a
transaction field of the wrong runtime type makes
`Transaction.__init__` raise a `TypeError` that propagates uncaught. -/
theorem from_dict_raises_on_malformed_transaction :
    Bankaccount.from_dict (.dict [("account_id", .int 7), ("balance", .float 100),
        ("currency", .str "USD"),
        ("transactions", .list [.dict [("transaction_id", .int 1), ("amount", .str "abc"),
          ("transaction_type", .str "deposit"), ("currency", .str "USD"),
          ("time_stamp", .iso 0)]])])
      = .error (.typeError "Amount must be a num") ∧
    Bankaccount.from_dict (.dict [("balance", .float 100), ("currency", .str "USD")])
      = .ok Option.none :=
  ⟨rfl, rfl⟩
